import Mathlib

/-!
A shallow embedding of `logger.go` of alailog

The logger of `josephalai/alailog` is embedded as pure Lean functions.

* Go strings are Lean `String`s.  The message parameter of `Log` and `LogColor`
  has Go type `interface{}` and is rendered with `fmt.Sprintf("%s", _)`; the
  embedding covers the calls whose message is a Go string, for which that
  rendering is the string itself.
* `type Level int` is `Int`; the seven named levels are the constants 0 to 6.
* `*os.File` is an optional descriptor (`none` is the nil pointer).
* Writing to a sink is recorded as an event; `Log` returns the list of the
  writes it performed, in program order.
* `Log` and `LogColor` call each other.  The embedding is indexed by a bound on
  the depth of the call stack: the result `none` means that the call did not
  return within that depth.
* `time.Now().Format(layout)` is a parameter of the embedding (`Clock`).
* A setter returns the logger after the call.
* The variadic operands of the formatting methods are values of type `GoValue`;
  `fmt.Sprintln` is embedded for them and `fmt.Sprintf` is a parameter.
* On the debug path the calls of `runtime.Caller` are recorded as events next to
  the writes, and what the runtime reports is a parameter (`Env`).
-/

namespace Alailog

/-! ## Levels (logger.go 277-294) -/

/-- Go `type Level int`. -/
abbrev Level : Type := Int

/-- Log everything. -/
def AllLvl : Level := 0
/-- Log debug and above. -/
def DebugLvl : Level := 1
/-- Log info and above. -/
def InfoLvl : Level := 2
/-- Log warn and above. -/
def WarnLvl : Level := 3
/-- Log error and above. -/
def ErrorLvl : Level := 4
/-- Log fatal and above. -/
def FatalLvl : Level := 5
/-- Log nothing. -/
def OffLvl : Level := 6

/-! ## Colors (logger.go 449-481) -/

/-- Go `string`. -/
abbrev GoString : Type := String

/-- Go `type Color string`. -/
structure Color where
  /-- The underlying escape sequence. -/
  str : GoString
deriving DecidableEq, Repr

/-- The method `func (c Color) String() string`. -/
def Color.String (c : Color) : GoString := c.str

/-- Background black. -/
def BgBlack : Color := ⟨"\x1b[40m"⟩
/-- Background red. -/
def BgRed : Color := ⟨"\x1b[41m"⟩
/-- Background green. -/
def BgGreen : Color := ⟨"\x1b[42m"⟩
/-- Background yellow. -/
def BgYellow : Color := ⟨"\x1b[43m"⟩
/-- Background blue. -/
def BgBlue : Color := ⟨"\x1b[44m"⟩
/-- Background magenta. -/
def BgMagenta : Color := ⟨"\x1b[45m"⟩
/-- Background cyan. -/
def BgCyan : Color := ⟨"\x1b[46m"⟩
/-- Background white. -/
def BgWhite : Color := ⟨"\x1b[47m"⟩

/-- Foreground black. -/
def Black : Color := ⟨"\x1b[1;30m"⟩
/-- Foreground red. -/
def Red : Color := ⟨"\x1b[1;31m"⟩
/-- Foreground green. -/
def Green : Color := ⟨"\x1b[1;32m"⟩
/-- Foreground yellow. -/
def Yellow : Color := ⟨"\x1b[1;33m"⟩
/-- Foreground blue. -/
def Blue : Color := ⟨"\x1b[1;34m"⟩
/-- Foreground magenta. -/
def Magenta : Color := ⟨"\x1b[1;35m"⟩
/-- Foreground cyan. -/
def Cyan : Color := ⟨"\x1b[1;36m"⟩
/-- Foreground purple, the same sequence as magenta. -/
def Purple : Color := ⟨"\x1b[1;35m"⟩
/-- Foreground white. -/
def White : Color := ⟨"\x1b[1;37m"⟩
/-- The reset sequence. -/
def Reset : Color := ⟨"\x1b[0m"⟩

/-! ## The logger (logger.go 222-243, 306-319) -/

/-- An open `*os.File`, identified by its descriptor. -/
abbrev File : Type := Nat

/-- The struct `Logger`.  The embedded `Debugger` is an empty struct. -/
structure Logger where
  /-- The file to log to; `none` is the nil pointer. -/
  file : Option File
  /-- The level to log at. -/
  level : Level
  /-- Whether to log to stdout. -/
  stdout : Bool
  /-- Whether to log to stderr. -/
  stderr : Bool
  /-- Whether to log in color. -/
  color : Bool
  /-- The configured text color. -/
  textColor : Color
  /-- The configured background color. -/
  bgColor : Color
  /-- Whether a timestamp is prepended. -/
  Timestamps : Bool
  /-- The layout of the timestamp. -/
  TimestampFormat : GoString
  /-- Whether the debug output is on. -/
  DebugMode : Bool
deriving DecidableEq, Repr

/-- The constructor `NewLogger`; the value behind the returned pointer. -/
def NewLogger (file : Option File) (level : Level) (stdout : Bool) (stderr : Bool) (color : Bool)
    (bgColor : Color) (textColor : Color) (timestamps : Bool) (timestampFormat : GoString) :
    Logger :=
  { file := file
    level := level
    stdout := stdout
    stderr := stderr
    color := color
    bgColor := bgColor
    textColor := textColor
    Timestamps := timestamps
    TimestampFormat := timestampFormat
    DebugMode := true }

/-! ## Sinks and writes -/

/-- The three destinations a logger writes to. -/
inductive Sink where
  | file (f : File)
  | stdout
  | stderr
deriving DecidableEq, Repr

/-- One call of `WriteString` on a sink. -/
structure Write where
  /-- The destination written to. -/
  sink : Sink
  /-- The string handed to `WriteString`. -/
  data : GoString
deriving DecidableEq, Repr

/-- The value of `time.Now().Format(layout)` for each layout. -/
abbrev Clock : Type := GoString → GoString

/-! ## `Log` and `LogColor` (logger.go 341-378) -/

mutual

/-- The method `Logger.Log`, with a bound on the depth of the call stack. -/
def Log : Nat → Clock → Logger → Level → GoString → Option (List Write)
  | 0, _, _, _, _ => none
  | fuel + 1, clock, l, level, messageStr =>
    let message := messageStr
    let message :=
      if l.Timestamps then
        let timestampFormat := l.TimestampFormat
        let timestampFormat :=
          if timestampFormat = "" then "2006-01-02 15:04:05" else timestampFormat
        "[" ++ clock timestampFormat ++ "] " ++ message
      else message
    if l.color then
      LogColor fuel clock l level l.textColor message
    else
      if level ≥ l.level then
        some ((match l.file with
                | some f => [Write.mk (Sink.file f) message]
                | none => []) ++
              (if l.stdout then [Write.mk Sink.stdout message] else []) ++
              (if l.stderr then [Write.mk Sink.stderr message] else []))
      else
        some []

/-- The method `Logger.LogColor`, with a bound on the depth of the call stack. -/
def LogColor : Nat → Clock → Logger → Level → Color → GoString → Option (List Write)
  | 0, _, _, _, _, _ => none
  | fuel + 1, clock, l, level, color, messageStr =>
    let message := messageStr
    if l.color then
      Log fuel clock l level (l.bgColor.String ++ color.String ++ message ++ Reset.String)
    else
      Log fuel clock l level message

end

/-! ## The singleton (logger.go 84-211) -/

/-- The struct `Parameter`. -/
structure Parameter where
  /-- The name of the log file. -/
  Filename : GoString
  /-- The threshold. -/
  Level : Level
  /-- Whether to log to stdout. -/
  Stdout : Bool
  /-- Whether to log to stderr. -/
  Stderror : Bool
  /-- Whether to log in color. -/
  IsColored : Bool
  /-- The text color. -/
  TextColor : Color
  /-- The background color. -/
  BgColor : Color
  /-- Whether a timestamp is prepended. -/
  Timestamps : Bool
  /-- The layout of the timestamp. -/
  TimestampFormat : GoString
deriving DecidableEq, Repr

/-- The constant `DefaultFile`. -/
def DefaultFile : GoString := "logs.txt"

/-- The function `getDefaultParameter`. -/
def getDefaultParameter : Parameter :=
  { Filename := DefaultFile
    Level := InfoLvl
    Stdout := true
    Stderror := false
    IsColored := false
    TextColor := White
    BgColor := BgBlack
    Timestamps := true
    TimestampFormat := "2006/01/02 15:04:05" }

/-- A `*Logger`: the address of a `Logger` on the heap. -/
abbrev Ptr : Type := Nat

/-- The struct `GoLogger`.  The state of `sync.Once` is whether `Do` has run its function. -/
structure GoLogger where
  /-- The stored pointer; `none` is nil. -/
  Instance : Option Ptr
  /-- Whether `doOnce.Do` has already run. -/
  doOnce : Bool
deriving DecidableEq, Repr

/-- The state of the process that `GetInstance` reads and changes. -/
structure World where
  /-- The package variable `loggerInstance`. -/
  loggerInstance : GoLogger
  /-- The allocated `Logger` values; a pointer is an index in this list. -/
  heap : List Logger
  /-- The names given to the successful calls of `os.OpenFile`, oldest first; the descriptor
  returned by a call is its index in this list. -/
  opened : List GoString
deriving DecidableEq, Repr

/-- The state of a process that has not called `GetInstance` yet. -/
def World.init : World :=
  { loggerInstance := { Instance := none, doOnce := false }
    heap := []
    opened := [] }

/-- The call `os.OpenFile(name, O_APPEND|O_CREATE|O_WRONLY, 0666)`: `openable` tells for which
names the operating system grants it; `none` is the error result. -/
def OpenFile (openable : GoString → Bool) (name : GoString) (w : World) : Option (File × World) :=
  if openable name then
    some (w.opened.length, { w with opened := w.opened ++ [name] })
  else
    none

/-- The function `createInstance`.  The result `none` is the exit of the process in
`log.Fatal`. -/
def createInstance (openable : GoString → Bool) (p : Parameter) (w : World) : Option World :=
  match OpenFile openable p.Filename w with
  | none => none
  | some (file, w) =>
    if w.loggerInstance.doOnce then
      some w
    else
      some { w with
        loggerInstance :=
          { Instance := some w.heap.length
            doOnce := true }
        heap := w.heap ++ [NewLogger (some file) p.Level p.Stdout p.Stderror p.IsColored
          p.BgColor p.TextColor p.Timestamps p.TimestampFormat] }

/-- The function `initInstance`. -/
def initInstance (openable : GoString → Bool) (p : Parameter) (w : World) : Option World :=
  createInstance openable p w

/-- The function `GetInstance`; `p` is the variadic argument.  The result `none` is the exit of
the process. -/
def GetInstance (openable : GoString → Bool) (p : List Parameter) (w : World) :
    Option (Option Ptr × World) :=
  let r :=
    match p with
    | p0 :: _ => initInstance openable p0 w
    | [] => initInstance openable getDefaultParameter w
  match r with
  | none => none
  | some w => some (w.loggerInstance.Instance, w)

/-- A sequential run of calls of `GetInstance`, one per argument list, collecting the returned
pointers.  The result `none` is the exit of the process during the run. -/
def runGetInstance (openable : GoString → Bool) :
    List (List Parameter) → World → Option (List (Option Ptr) × World)
  | [], w => some ([], w)
  | p :: ps, w =>
    match GetInstance openable p w with
    | none => none
    | some (r, w) =>
      match runGetInstance openable ps w with
      | none => none
      | some (rs, w) => some (r :: rs, w)

/-! ## Setters (logger.go 245-266, 321-334, 567-585) -/

/-- The method `EnableDebugMode`; the logger after the call. -/
def Logger.EnableDebugMode (l : Logger) : Logger :=
  { l with DebugMode := true }

/-- The method `DisableDebugMode`; the logger after the call. -/
def Logger.DisableDebugMode (l : Logger) : Logger :=
  { l with DebugMode := false }

/-- The method `SetTextColor`; the logger after the call. -/
def Logger.SetTextColor (l : Logger) (color : Color) : Logger :=
  { l with textColor := color }

/-- The method `SetBgColor`; the logger after the call. -/
def Logger.SetBgColor (l : Logger) (color : Color) : Logger :=
  { l with bgColor := color }

/-- The method `EnableTimestamps`; the logger after the call. -/
def Logger.EnableTimestamps (l : Logger) : Logger :=
  { l with Timestamps := true }

/-- The method `DisableTimestamps`; the logger after the call. -/
def Logger.DisableTimestamps (l : Logger) : Logger :=
  { l with Timestamps := false }

/-- The method `SetTimestampFormat`; the logger after the call. -/
def Logger.SetTimestampFormat (l : Logger) (format : GoString) : Logger :=
  { l with TimestampFormat := format }

/-- The method `SetLevel`; the logger after the call. -/
def Logger.SetLevel (l : Logger) (level : Level) : Logger :=
  { l with level := level }

/-- The method `SetStdout`; the logger after the call. -/
def Logger.SetStdout (l : Logger) (stdout : Bool) : Logger :=
  { l with stdout := stdout }

/-- The method `SetStderr`; the logger after the call. -/
def Logger.SetStderr (l : Logger) (stderr : Bool) : Logger :=
  { l with stderr := stderr }

/-! ## `Color.Code` (logger.go 483-505) -/

/-- The method `Color.Code`: the `switch` compares `c` with the cases from top to bottom. -/
def Color.Code (c : Color) : GoString :=
  if c = Black then "30"
  else if c = Red then "31"
  else if c = Green then "32"
  else if c = Yellow then "33"
  else if c = Blue then "34"
  else if c = Magenta then "35"
  else if c = Cyan then "36"
  else if c = White then "37"
  else ""

/-! ## Level methods (logger.go 400-447)

The methods below hand their bound on to `Log`: the bound counts the frames of `Log` and
`LogColor`. -/

/-- The method `Logger.Info`. -/
def Logger.Info (fuel : Nat) (clock : Clock) (l : Logger) (message : GoString) :
    Option (List Write) :=
  Log fuel clock l InfoLvl message

/-- The method `Logger.Warn`. -/
def Logger.Warn (fuel : Nat) (clock : Clock) (l : Logger) (message : GoString) :
    Option (List Write) :=
  Log fuel clock l WarnLvl message

/-- The method `Logger.Error`. -/
def Logger.Error (fuel : Nat) (clock : Clock) (l : Logger) (message : GoString) :
    Option (List Write) :=
  Log fuel clock l ErrorLvl message

/-- The method `Logger.Fatal`. -/
def Logger.Fatal (fuel : Nat) (clock : Clock) (l : Logger) (message : GoString) :
    Option (List Write) :=
  Log fuel clock l FatalLvl message

/-! ## Formatting (package `fmt`)

The arguments of the variadic methods are Go values of three kinds.  `fmt.Sprintln` is embedded
for them; `fmt.Sprintf` is a parameter of the embedding. -/

/-- A Go value passed as `interface{}`: a string, an int or a `[]interface{}`. -/
inductive GoValue where
  | str (s : GoString)
  | int (n : Int)
  | slice (vs : List GoValue)

mutual

/-- The default format of a value, the one of the verb `%v`. -/
def GoValue.render : GoValue → GoString
  | GoValue.str s => s
  | GoValue.int n => toString n
  | GoValue.slice vs => "[" ++ GoValue.renderAll vs ++ "]"

/-- The default formats of the operands, separated by one space. -/
def GoValue.renderAll : List GoValue → GoString
  | [] => ""
  | [v] => GoValue.render v
  | v :: w :: vs => GoValue.render v ++ " " ++ GoValue.renderAll (w :: vs)

end

/-- The function `fmt.Sprintln`: the operands in their default format, a space between
operands, and a newline appended. -/
def Sprintln (args : List GoValue) : GoString :=
  GoValue.renderAll args ++ "\n"

/-- The function `fmt.Sprintf`, as a parameter: the format and the list of operands it
receives. -/
abbrev SprintfFn : Type := GoString → List GoValue → GoString

/-! ## Formatting methods (logger.go 587-672) -/

/-- The method `Logger.Infof`. -/
def Logger.Infof (Sprintf : SprintfFn) (fuel : Nat) (clock : Clock) (l : Logger)
    (format : GoString) (args : List GoValue) : Option (List Write) :=
  Logger.Info fuel clock l (Sprintf format args)

/-- The method `Logger.Debugf`: `fmt.Println` writes its operand and a newline to the
standard output of the process. -/
def Logger.Debugf (Sprintf : SprintfFn) (_l : Logger) (format : GoString) (args : List GoValue) :
    Option (List Write) :=
  some [Write.mk Sink.stdout (Sprintln [GoValue.str (Sprintf format args)])]

/-- The method `Logger.Printf`: `args` is handed to `Infof` as one operand, the slice. -/
def Logger.Printf (Sprintf : SprintfFn) (fuel : Nat) (clock : Clock) (l : Logger)
    (format : GoString) (args : List GoValue) : Option (List Write) :=
  Logger.Infof Sprintf fuel clock l format [GoValue.slice args]

/-- The method `Logger.Errorf`. -/
def Logger.Errorf (Sprintf : SprintfFn) (fuel : Nat) (clock : Clock) (l : Logger)
    (format : GoString) (args : List GoValue) : Option (List Write) :=
  Logger.Error fuel clock l (Sprintf format args)

/-- The method `Logger.Warningf`. -/
def Logger.Warningf (Sprintf : SprintfFn) (fuel : Nat) (clock : Clock) (l : Logger)
    (format : GoString) (args : List GoValue) : Option (List Write) :=
  Logger.Warn fuel clock l (Sprintf format args)

/-- The method `Logger.Fatalf`. -/
def Logger.Fatalf (Sprintf : SprintfFn) (fuel : Nat) (clock : Clock) (l : Logger)
    (format : GoString) (args : List GoValue) : Option (List Write) :=
  Logger.Fatal fuel clock l (Sprintf format args)

/-- The method `Logger.Infoln`. -/
def Logger.Infoln (fuel : Nat) (clock : Clock) (l : Logger) (args : List GoValue) :
    Option (List Write) :=
  Logger.Info fuel clock l (Sprintln args)

/-- The method `Logger.Println`: the string of `Sprintln` is the one operand of `Infoln`. -/
def Logger.Println (fuel : Nat) (clock : Clock) (l : Logger) (args : List GoValue) :
    Option (List Write) :=
  Logger.Infoln fuel clock l [GoValue.str (Sprintln args)]

/-- The method `Logger.Errorln`. -/
def Logger.Errorln (fuel : Nat) (clock : Clock) (l : Logger) (args : List GoValue) :
    Option (List Write) :=
  Logger.Error fuel clock l (Sprintln args)

/-- The method `Logger.Warningln`. -/
def Logger.Warningln (fuel : Nat) (clock : Clock) (l : Logger) (args : List GoValue) :
    Option (List Write) :=
  Logger.Warn fuel clock l (Sprintln args)

/-- The method `Logger.Fatalln`. -/
def Logger.Fatalln (fuel : Nat) (clock : Clock) (l : Logger) (args : List GoValue) :
    Option (List Write) :=
  Logger.Fatal fuel clock l (Sprintln args)

/-! ## Debug output (logger.go 12-69, 380-395, 711-714, 805-809) -/

/-- What the debug path does that can be observed: a write to a sink, or a call of
`runtime.Caller` with its number of frames to skip. -/
inductive Event where
  | write (w : Write)
  | caller (steps : Int)
deriving DecidableEq, Repr

/-- The surroundings of a call on the debug path: the clock, the files that can be opened,
`fmt.Sprintf`, and what the Go runtime reports for a frame `steps` above the introspection
helpers called from `DebugMessage`. -/
structure Env where
  /-- The value of `time.Now().Format(layout)`. -/
  clock : Clock
  /-- Whether `os.OpenFile` succeeds on a name. -/
  openable : GoString → Bool
  /-- The function `fmt.Sprintf`. -/
  Sprintf : SprintfFn
  /-- The value of `runtime.FuncForPC(pc).Name()` for the frame. -/
  funcName : Int → GoString
  /-- The file reported by `runtime.Caller` for the frame. -/
  file : Int → GoString
  /-- The line reported by `runtime.Caller` for the frame. -/
  line : Int → Int

/-- The method `Debugger.GetFunctionName`: one call of `runtime.Caller`. -/
def Debugger.GetFunctionName (env : Env) (steps : Int) : List Event × GoString :=
  ([Event.caller steps], env.funcName steps)

/-- The method `Debugger.GetFileAndLineNumber`: one call of `runtime.Caller`. -/
def Debugger.GetFileAndLineNumber (env : Env) (steps : Int) : List Event × GoString × Int :=
  ([Event.caller steps], env.file steps, env.line steps)

/-- The package function `Printf`: it fetches the singleton and calls its `Infof`.  The result
`none` is the exit of the process, a nil dereference, or a call that does not return. -/
def Printf (env : Env) (fuel : Nat) (format : GoString) (args : List GoValue) (w : World) :
    Option (List Write × World) :=
  match GetInstance env.openable [] w with
  | none => none
  | some (logger, w) =>
    match logger with
    | none => none
    | some ptr =>
      match w.heap[ptr]? with
      | none => none
      | some l =>
        match Logger.Infof env.Sprintf fuel env.clock l format args with
        | none => none
        | some ws => some (ws, w)

/-- Go `int` arithmetic on a 64-bit platform: a result outside the range of `int64` wraps
around. -/
def wrapInt (x : Int) : Int :=
  (x + 9223372036854775808) % 18446744073709551616 - 9223372036854775808

/-- The method `Debugger.DebugMessage`; `goSkip` is the variadic argument, `none` being the nil
slice of a call without argument.  Reading `goSkip[0]` of a slice that is empty but not nil
panics: the result is `none`. -/
def Debugger.DebugMessage (env : Env) (fuel : Nat) (goSkip : Option (List Int)) (w : World) :
    Option (List Event × World) :=
  let skip : Int := 2
  let skip : Option Int :=
    match goSkip with
    | none => some skip
    | some [] => none
    | some (s :: _) => some (wrapInt (skip + s))
  match skip with
  | none => none
  | some skip =>
    let (e1, functionName) := Debugger.GetFunctionName env skip
    let (e2, file, line) := Debugger.GetFileAndLineNumber env skip
    match Printf env fuel "Debug Message - Function name: %s, File: %s, Line: %d\n"
        [GoValue.str functionName, GoValue.str file, GoValue.int line] w with
    | none => none
    | some (ws, w) => some (e1 ++ e2 ++ ws.map Event.write, w)

/-- The method `Logger.DebugLog`; `skip` is the variadic argument, handed on as it is. -/
def Logger.DebugLog (env : Env) (fuel : Nat) (l : Logger) (skip : Option (List Int))
    (w : World) :
    Option (Bool × List Event × World) :=
  if l.DebugMode then
    match Debugger.DebugMessage env fuel skip w with
    | none => none
    | some (es, w) => some (true, es, w)
  else
    some (false, [], w)

/-- The method `Logger.Debug`. -/
def Logger.Debug (env : Env) (fuel : Nat) (l : Logger) (message : GoString) (w : World) :
    Option (List Event × World) :=
  match Logger.DebugLog env fuel l (some [4]) w with
  | none => none
  | some (is, es, w) =>
    if is then
      match Log fuel env.clock l DebugLvl message with
      | none => none
      | some ws => some (es ++ ws.map Event.write, w)
    else
      some (es, w)

/-- The method `Logger.Debugln`. -/
def Logger.Debugln (env : Env) (fuel : Nat) (l : Logger) (args : List GoValue) (w : World) :
    Option (List Event × World) :=
  match Logger.DebugLog env fuel l (some [4]) w with
  | none => none
  | some (is, es, w) =>
    if is then
      match Logger.Println fuel env.clock l [GoValue.str (Sprintln args)] with
      | none => none
      | some ws => some (es ++ ws.map Event.write, w)
    else
      some (es, w)

/-! ## Shared lemmas -/

/-- With color disabled one frame is enough for `Log`: it returns the writes of the plain
branch on the message after the timestamp step. -/
theorem Log_plain_unfold (fuel : Nat) (clock : Clock) (l : Logger) (level : Level)
    (m : GoString) (hc : l.color = false) :
    Log (fuel + 1) clock l level m =
      if level ≥ l.level then
        some ((match l.file with
                | some f => [Write.mk (Sink.file f)
                    (if l.Timestamps then
                      "[" ++ clock (if l.TimestampFormat = "" then "2006-01-02 15:04:05"
                        else l.TimestampFormat) ++ "] " ++ m
                     else m)]
                | none => []) ++
              (if l.stdout then [Write.mk Sink.stdout
                    (if l.Timestamps then
                      "[" ++ clock (if l.TimestampFormat = "" then "2006-01-02 15:04:05"
                        else l.TimestampFormat) ++ "] " ++ m
                     else m)] else []) ++
              (if l.stderr then [Write.mk Sink.stderr
                    (if l.Timestamps then
                      "[" ++ clock (if l.TimestampFormat = "" then "2006-01-02 15:04:05"
                        else l.TimestampFormat) ++ "] " ++ m
                     else m)] else []))
      else some [] := by
  simp only [Log, hc, Bool.false_eq_true, if_false]

/-- With color enabled neither `Log` nor `LogColor` returns, whatever the depth allowed: each
calls the other with the same logger. -/
theorem color_never_returns (clock : Clock) (l : Logger) (hc : l.color = true) (fuel : Nat) :
    (∀ (level : Level) (m : GoString), Log fuel clock l level m = none) ∧
    (∀ (level : Level) (c : Color) (m : GoString), LogColor fuel clock l level c m = none) := by
  induction fuel with
  | zero => exact ⟨fun _ _ => by simp [Log], fun _ _ _ => by simp [LogColor]⟩
  | succ n ih =>
    refine ⟨fun level m => ?_, fun level c m => ?_⟩
    · simp only [Log, hc, if_true]
      exact ih.2 _ _ _
    · simp only [LogColor, hc, if_true]
      exact ih.1 _ _

/-! ## The plain path of `Log` -/

/-- C1: for a logger with color and timestamps disabled, `Log(level, m)` returns after writing
`m` to the file if a handle is present, to stdout if enabled and to stderr if enabled, in that
order, when `level >= threshold`; it returns without any write when `level < threshold`. -/
theorem Log_plain_threshold (fuel : Nat) (clock : Clock) (l : Logger) (level : Level)
    (m : GoString) (hc : l.color = false) (ht : l.Timestamps = false) :
    (level ≥ l.level →
      Log (fuel + 1) clock l level m =
        some ((l.file.toList.map fun f => Write.mk (Sink.file f) m) ++
          (if l.stdout then [Write.mk Sink.stdout m] else []) ++
          (if l.stderr then [Write.mk Sink.stderr m] else []))) ∧
    (level < l.level → Log (fuel + 1) clock l level m = some []) := by
  rw [Log_plain_unfold fuel clock l level m hc]
  constructor
  · intro h
    rw [if_pos h]
    cases hf : l.file <;> simp [ht]
  · intro h
    rw [if_neg (not_le.mpr h)]

/-- C1, at threshold `Warn` with a file and stdout: an `Error` message is written to both, an
`Info` message to none. -/
theorem Log_plain_threshold_witness :
    Log 1 (fun _ => "now")
        (NewLogger (some 0) WarnLvl true false false BgBlack White false "") ErrorLvl "x" =
      some [Write.mk (Sink.file 0) "x", Write.mk Sink.stdout "x"] ∧
    Log 1 (fun _ => "now")
        (NewLogger (some 0) WarnLvl true false false BgBlack White false "") InfoLvl "x" =
      some [] :=
  ⟨(Log_plain_threshold 0 (fun _ => "now")
      (NewLogger (some 0) WarnLvl true false false BgBlack White false "") ErrorLvl "x"
      rfl rfl).1 (by decide),
   (Log_plain_threshold 0 (fun _ => "now")
      (NewLogger (some 0) WarnLvl true false false BgBlack White false "") InfoLvl "x"
      rfl rfl).2 (by decide)⟩

/-! ## The color path -/

/-- C2: with color enabled, threshold `Error` and stdout enabled, `Log(Debug, "x")` does not
return at any depth of the call stack, so it never reaches a write: `Log` calls `LogColor`,
which calls `Log` again with the same logger. -/
theorem Log_color_no_return (fuel : Nat) (clock : Clock) :
    Log fuel clock (NewLogger none ErrorLvl true false true BgBlack White false "")
      DebugLvl "x" = none :=
  (color_never_returns clock _ rfl fuel).1 _ _

/-- C3: with color enabled and stdout enabled, `LogColor(Info, Red, "hello")` does not return
at any depth of the call stack, so no sink receives the wrapped string. -/
theorem LogColor_color_no_return (fuel : Nat) (clock : Clock) :
    LogColor fuel clock (NewLogger none AllLvl true false true BgBlack White false "")
      InfoLvl Red "hello" = none :=
  (color_never_returns clock _ rfl fuel).2 _ _ _

/-! ## Fan-out and content of the plain path -/

/-- C4: when `Log` emits (color disabled, `level >= threshold`) it returns a list of writes in
which the file `f` occurs once if `f` is the logger's handle and never otherwise, stdout occurs
once if enabled and never otherwise, stderr likewise, and every write carries the same string:
the message after the timestamp step, with nothing appended. -/
theorem Log_fan_out (fuel : Nat) (clock : Clock) (l : Logger) (level : Level) (m : GoString)
    (hc : l.color = false) (hlev : level ≥ l.level) :
    ∃ ws : List Write,
      Log (fuel + 1) clock l level m = some ws ∧
      (∀ f : File, (ws.map Write.sink).count (Sink.file f) = if l.file = some f then 1 else 0) ∧
      (ws.map Write.sink).count Sink.stdout = (if l.stdout then 1 else 0) ∧
      (ws.map Write.sink).count Sink.stderr = (if l.stderr then 1 else 0) ∧
      (∀ w ∈ ws, w.data =
        if l.Timestamps then
          "[" ++ clock (if l.TimestampFormat = "" then "2006-01-02 15:04:05"
            else l.TimestampFormat) ++ "] " ++ m
        else m) := by
  rw [Log_plain_unfold fuel clock l level m hc, if_pos hlev]
  generalize (if l.Timestamps then
      "[" ++ clock (if l.TimestampFormat = "" then "2006-01-02 15:04:05"
        else l.TimestampFormat) ++ "] " ++ m
    else m) = msg
  refine ⟨_, rfl, ?_, ?_, ?_, ?_⟩
  · intro f
    cases l.file with
    | none => cases l.stdout <;> cases l.stderr <;> simp [List.count_cons]
    | some v =>
      by_cases hv : v = f
      · subst hv
        cases l.stdout <;> cases l.stderr <;> simp [List.count_cons]
      · cases l.stdout <;> cases l.stderr <;> simp [List.count_cons, hv]
  · cases l.file <;> cases l.stdout <;> cases l.stderr <;> simp [List.count_cons]
  · cases l.file <;> cases l.stdout <;> cases l.stderr <;> simp [List.count_cons]
  · intro w hw
    simp only [List.mem_append] at hw
    rcases hw with (hw | hw) | hw <;> split at hw <;>
      simp only [List.mem_singleton, List.not_mem_nil] at hw <;> rw [hw]

/-- C4, with a file and stdout but no stderr at threshold `All`: `Log(Error, "x")` writes "x"
once to the file and once to stdout and nothing to stderr. -/
theorem Log_fan_out_witness :
    ∃ ws : List Write,
      Log 1 (fun _ => "now")
        (NewLogger (some 0) AllLvl true false false BgBlack White false "") ErrorLvl "x" =
        some ws ∧
      (∀ f : File, (ws.map Write.sink).count (Sink.file f) =
        if (NewLogger (some 0) AllLvl true false false BgBlack White false "").file = some f
        then 1 else 0) ∧
      (ws.map Write.sink).count Sink.stdout = 1 ∧
      (ws.map Write.sink).count Sink.stderr = 0 ∧
      (∀ w ∈ ws, w.data = "x") :=
  Log_fan_out 0 (fun _ => "now")
    (NewLogger (some 0) AllLvl true false false BgBlack White false "") ErrorLvl "x" rfl
    (by decide)

/-- C5: for a logger with color disabled and a message that passes the threshold, `Log`
returns after writing to each enabled sink exactly "[" + format(now, F) + "] " + m when
timestamps are enabled, where F is the configured layout or "2006-01-02 15:04:05" when that is
empty, and exactly `m` when timestamps are disabled. -/
theorem Log_timestamp_content (fuel : Nat) (clock : Clock) (l : Logger) (level : Level)
    (m : GoString) (hc : l.color = false) (hlev : level ≥ l.level) :
    (l.Timestamps = true →
      Log (fuel + 1) clock l level m =
        some ((l.file.toList.map Sink.file ++ (if l.stdout then [Sink.stdout] else []) ++
            (if l.stderr then [Sink.stderr] else [])).map fun s =>
          Write.mk s ("[" ++ clock (if l.TimestampFormat = "" then "2006-01-02 15:04:05"
            else l.TimestampFormat) ++ "] " ++ m))) ∧
    (l.Timestamps = false →
      Log (fuel + 1) clock l level m =
        some ((l.file.toList.map Sink.file ++ (if l.stdout then [Sink.stdout] else []) ++
            (if l.stderr then [Sink.stderr] else [])).map fun s => Write.mk s m)) := by
  rw [Log_plain_unfold fuel clock l level m hc, if_pos hlev]
  constructor <;> intro ht <;> rw [ht] <;>
    cases l.file <;> cases l.stdout <;> cases l.stderr <;> rfl

/-- C5, with the layout "2006/01/02", with the empty layout and with timestamps disabled; the
clock shows the layout it was asked for. -/
theorem Log_timestamp_content_witness :
    Log 1 (fun layout => layout)
        (NewLogger none InfoLvl true false false BgBlack White true "2006/01/02") InfoLvl "hi" =
      some [Write.mk Sink.stdout "[2006/01/02] hi"] ∧
    Log 1 (fun layout => layout)
        (NewLogger none InfoLvl true false false BgBlack White true "") InfoLvl "hi" =
      some [Write.mk Sink.stdout "[2006-01-02 15:04:05] hi"] ∧
    Log 1 (fun layout => layout)
        (NewLogger none InfoLvl true false false BgBlack White false "2006/01/02") InfoLvl "hi" =
      some [Write.mk Sink.stdout "hi"] :=
  ⟨(Log_timestamp_content 0 (fun layout => layout)
      (NewLogger none InfoLvl true false false BgBlack White true "2006/01/02") InfoLvl "hi"
      rfl (by decide)).1 rfl,
   (Log_timestamp_content 0 (fun layout => layout)
      (NewLogger none InfoLvl true false false BgBlack White true "") InfoLvl "hi"
      rfl (by decide)).1 rfl,
   (Log_timestamp_content 0 (fun layout => layout)
      (NewLogger none InfoLvl true false false BgBlack White false "2006/01/02") InfoLvl "hi"
      rfl (by decide)).2 rfl⟩

/-- C6: for a logger with color disabled, `LogColor(level, c, m)` returns with exactly the
writes of `Log(level, m)`, whatever the color `c`; it needs one more frame than `Log`, the one
of `LogColor` itself. -/
theorem LogColor_plain_eq_Log (fuel : Nat) (clock : Clock) (l : Logger) (level : Level)
    (m : GoString) (hc : l.color = false) :
    ∃ ws : List Write,
      Log (fuel + 1) clock l level m = some ws ∧
      ∀ c : Color, LogColor (fuel + 2) clock l level c m = some ws := by
  have hLC : ∀ c : Color,
      LogColor (fuel + 2) clock l level c m = Log (fuel + 1) clock l level m := by
    intro c
    simp only [LogColor, hc, Bool.false_eq_true, if_false]
  have hsome : ∃ ws : List Write, Log (fuel + 1) clock l level m = some ws := by
    rw [Log_plain_unfold fuel clock l level m hc]
    split
    · exact ⟨_, rfl⟩
    · exact ⟨_, rfl⟩
  obtain ⟨ws, hws⟩ := hsome
  exact ⟨ws, hws, fun c => by rw [hLC c, hws]⟩

/-- C6, at threshold `Info` with stdout: `LogColor(Warn, Red, "x")` and `Log(Warn, "x")` both
write "x" to stdout. -/
theorem LogColor_plain_eq_Log_witness :
    ∃ ws : List Write,
      Log 1 (fun _ => "now")
        (NewLogger none InfoLvl true false false BgBlack White false "") WarnLvl "x" = some ws ∧
      ∀ c : Color, LogColor 2 (fun _ => "now")
        (NewLogger none InfoLvl true false false BgBlack White false "") WarnLvl c "x" =
          some ws :=
  LogColor_plain_eq_Log 0 (fun _ => "now")
    (NewLogger none InfoLvl true false false BgBlack White false "") WarnLvl "x" rfl

/-! ## The threshold `Off` -/

/-- C10: a logger with color disabled, threshold `Off` and stdout enabled does not suppress
everything: `Log(OffLvl, "x")` writes "x" to stdout, because the filter is
`level >= threshold` and `Off >= Off`. -/
theorem Log_off_threshold_counterexample :
    Log 1 (fun _ => "now")
        (NewLogger none OffLvl true false false BgBlack White false "") OffLvl "x" =
      some [Write.mk Sink.stdout "x"] := by
  decide

/-- A logger with color disabled whose threshold is `Off` returns from `Log(level, m)` without
any write for every message and every level below `Off`, which covers `All`, `Debug`, `Info`,
`Warn`, `Error` and `Fatal`. -/
theorem Log_off_threshold_suppresses (fuel : Nat) (clock : Clock) (l : Logger) (level : Level)
    (m : GoString) (hc : l.color = false) (hoff : l.level = OffLvl) (hlev : level < OffLvl) :
    Log (fuel + 1) clock l level m = some [] := by
  rw [Log_plain_unfold fuel clock l level m hc, hoff, if_neg (not_le.mpr hlev)]

/-- The threshold `Off` at the level `Fatal` with every sink enabled. -/
theorem Log_off_threshold_suppresses_witness :
    Log 1 (fun _ => "now")
        (NewLogger (some 0) OffLvl true true false BgBlack White true "") FatalLvl "x" =
      some [] :=
  Log_off_threshold_suppresses 0 (fun _ => "now")
    (NewLogger (some 0) OffLvl true true false BgBlack White true "") FatalLvl "x" rfl rfl
    (by decide)

/-! ## The singleton -/

/-- Once `doOnce` has fired, a call of `GetInstance` whose file can be opened returns the stored
pointer and changes nothing but the list of opened files. -/
theorem GetInstance_initialised (openable : GoString → Bool) (p : List Parameter) (w : World)
    (hdone : w.loggerInstance.doOnce = true)
    (hp : openable (p.headD getDefaultParameter).Filename = true) :
    GetInstance openable p w =
      some (w.loggerInstance.Instance,
        { w with opened := w.opened ++ [(p.headD getDefaultParameter).Filename] }) := by
  cases p with
  | nil =>
    simp only [List.headD_nil] at hp
    simp [GetInstance, initInstance, createInstance, OpenFile, hp, hdone]
  | cons p0 ps =>
    simp only [List.headD_cons] at hp
    simp [GetInstance, initInstance, createInstance, OpenFile, hp, hdone]

/-- Once `doOnce` has fired, every call of a sequential run returns the stored pointer, and the
run leaves the stored pointer and the heap as they were. -/
theorem runGetInstance_initialised (openable : GoString → Bool) (calls : List (List Parameter)) :
    ∀ w : World, w.loggerInstance.doOnce = true →
      (∀ p ∈ calls, openable (p.headD getDefaultParameter).Filename = true) →
      ∃ w2 : World,
        runGetInstance openable calls w =
          some (List.replicate calls.length w.loggerInstance.Instance, w2) ∧
        w2.loggerInstance = w.loggerInstance ∧ w2.heap = w.heap := by
  induction calls with
  | nil =>
    intro w _ _
    exact ⟨w, rfl, rfl, rfl⟩
  | cons p ps ih =>
    intro w hdone hall
    have hp := hall p (List.mem_cons_self p ps)
    obtain ⟨w2, hrun, hli, hheap⟩ :=
      ih { w with opened := w.opened ++ [(p.headD getDefaultParameter).Filename] } hdone
        (fun q hq => hall q (List.mem_cons_of_mem p hq))
    refine ⟨w2, ?_, hli, hheap⟩
    simp only [runGetInstance, GetInstance_initialised openable p w hdone hp, hrun,
      List.length_cons, List.replicate_succ]

/-- C7: in a sequential run from the uninitialised singleton in which every file can be
opened, `GetInstance(A)`, then `GetInstance(B)`, then any further calls all return the same
pointer; the logger behind it is the same after each call and its level, stdout, stderr, color,
text color, background color, timestamps and timestamp layout are those of `A`. -/
theorem GetInstance_first_configuration_wins (openable : GoString → Bool) (A B : Parameter)
    (calls : List (List Parameter))
    (hA : openable A.Filename = true) (hB : openable B.Filename = true)
    (hcalls : ∀ p ∈ calls, openable (p.headD getDefaultParameter).Filename = true) :
    ∃ (ptr : Ptr) (w1 w2 w3 : World) (lg : Logger),
      GetInstance openable [A] World.init = some (some ptr, w1) ∧
      GetInstance openable [B] w1 = some (some ptr, w2) ∧
      runGetInstance openable calls w2 = some (List.replicate calls.length (some ptr), w3) ∧
      w3.loggerInstance.Instance = some ptr ∧
      w1.heap[ptr]? = some lg ∧ w2.heap[ptr]? = some lg ∧ w3.heap[ptr]? = some lg ∧
      lg.level = A.Level ∧ lg.stdout = A.Stdout ∧ lg.stderr = A.Stderror ∧
      lg.color = A.IsColored ∧ lg.textColor = A.TextColor ∧ lg.bgColor = A.BgColor ∧
      lg.Timestamps = A.Timestamps ∧ lg.TimestampFormat = A.TimestampFormat := by
  have h1 : GetInstance openable [A] World.init =
      some (some 0,
        { loggerInstance := { Instance := some 0, doOnce := true }
          heap := [NewLogger (some 0) A.Level A.Stdout A.Stderror A.IsColored A.BgColor
            A.TextColor A.Timestamps A.TimestampFormat]
          opened := [A.Filename] }) := by
    simp [GetInstance, initInstance, createInstance, OpenFile, World.init, hA]
  have h2 := GetInstance_initialised openable [B]
    { loggerInstance := { Instance := some 0, doOnce := true }
      heap := [NewLogger (some 0) A.Level A.Stdout A.Stderror A.IsColored A.BgColor
        A.TextColor A.Timestamps A.TimestampFormat]
      opened := [A.Filename] } rfl hB
  obtain ⟨w3, h3, hli, hheap⟩ := runGetInstance_initialised openable calls
    { loggerInstance := { Instance := some 0, doOnce := true }
      heap := [NewLogger (some 0) A.Level A.Stdout A.Stderror A.IsColored A.BgColor
        A.TextColor A.Timestamps A.TimestampFormat]
      opened := [A.Filename] ++ [B.Filename] } rfl hcalls
  refine ⟨0, _, _, w3, _, h1, h2, h3, ?_, rfl, rfl, ?_, rfl, rfl, rfl, rfl, rfl, rfl, rfl, rfl⟩
  · rw [hli]
  · rw [hheap]
    rfl

/-- C7, with `A` at level `Error` writing to stderr in color, `B` the default configuration
under another file name, and one further call without argument. -/
theorem GetInstance_first_configuration_wins_witness :
    ∃ (ptr : Ptr) (w1 w2 w3 : World) (lg : Logger),
      GetInstance (fun _ => true)
        [Parameter.mk "a.log" ErrorLvl false true true Red BgWhite false "15:04"]
        World.init = some (some ptr, w1) ∧
      GetInstance (fun _ => true)
        [Parameter.mk "b.log" InfoLvl true false false White BgBlack true "2006/01/02 15:04:05"]
        w1 = some (some ptr, w2) ∧
      runGetInstance (fun _ => true) [[]] w2 = some (List.replicate 1 (some ptr), w3) ∧
      w3.loggerInstance.Instance = some ptr ∧
      w1.heap[ptr]? = some lg ∧ w2.heap[ptr]? = some lg ∧ w3.heap[ptr]? = some lg ∧
      lg.level = ErrorLvl ∧ lg.stdout = false ∧ lg.stderr = true ∧
      lg.color = true ∧ lg.textColor = Red ∧ lg.bgColor = BgWhite ∧
      lg.Timestamps = false ∧ lg.TimestampFormat = "15:04" :=
  GetInstance_first_configuration_wins (fun _ => true)
    (Parameter.mk "a.log" ErrorLvl false true true Red BgWhite false "15:04")
    (Parameter.mk "b.log" InfoLvl true false false White BgBlack true "2006/01/02 15:04:05")
    [[]] rfl rfl (fun _ _ => rfl)

/-- C8: two calls of `GetInstance` without argument from the uninitialised singleton both
return the same pointer, and `os.OpenFile` has run on "logs.txt" twice, once per call: the
open is outside `doOnce.Do`. -/
theorem GetInstance_opens_file_on_every_call :
    runGetInstance (fun _ => true) [[], []] World.init =
      some ([some 0, some 0],
        { loggerInstance := { Instance := some 0, doOnce := true }
          heap := [NewLogger (some 0) InfoLvl true false false BgBlack White true
            "2006/01/02 15:04:05"]
          opened := ["logs.txt", "logs.txt"] }) := by
  decide

/-! ## Levels -/

/-- C11: the seven levels have the ordinals 0 to 6 and are strictly increasing in the order
`AllLvl`, `DebugLvl`, `InfoLvl`, `WarnLvl`, `ErrorLvl`, `FatalLvl`, `OffLvl`; `AllLvl` is at
most each of them and `OffLvl` is strictly above each of the other six. -/
theorem Level_order :
    (AllLvl = 0 ∧ DebugLvl = 1 ∧ InfoLvl = 2 ∧ WarnLvl = 3 ∧ ErrorLvl = 4 ∧ FatalLvl = 5 ∧
      OffLvl = 6) ∧
    (AllLvl < DebugLvl ∧ DebugLvl < InfoLvl ∧ InfoLvl < WarnLvl ∧ WarnLvl < ErrorLvl ∧
      ErrorLvl < FatalLvl ∧ FatalLvl < OffLvl) ∧
    (∀ x ∈ [AllLvl, DebugLvl, InfoLvl, WarnLvl, ErrorLvl, FatalLvl, OffLvl], AllLvl ≤ x) ∧
    (∀ x ∈ [AllLvl, DebugLvl, InfoLvl, WarnLvl, ErrorLvl, FatalLvl], x < OffLvl) := by
  decide

/-! ## Level methods -/

/-- For every logger and message, `Info`, `Warn`, `Error` and `Fatal` are the calls
`Log(InfoLvl, m)`, `Log(WarnLvl, m)`, `Log(ErrorLvl, m)` and `Log(FatalLvl, m)`; with color
disabled `Fatal` returns to its caller, with the writes of that `Log` call and nothing else. -/
theorem level_methods_eq_Log (fuel : Nat) (clock : Clock) (l : Logger) (m : GoString) :
    Logger.Info fuel clock l m = Log fuel clock l InfoLvl m ∧
    Logger.Warn fuel clock l m = Log fuel clock l WarnLvl m ∧
    Logger.Error fuel clock l m = Log fuel clock l ErrorLvl m ∧
    Logger.Fatal fuel clock l m = Log fuel clock l FatalLvl m ∧
    (l.color = false →
      ∃ ws : List Write, Logger.Fatal (fuel + 1) clock l m = some ws ∧
        Log (fuel + 1) clock l FatalLvl m = some ws) := by
  refine ⟨rfl, rfl, rfl, rfl, fun hc => ?_⟩
  have hsome : ∃ ws : List Write, Log (fuel + 1) clock l FatalLvl m = some ws := by
    rw [Log_plain_unfold fuel clock l FatalLvl m hc]
    split
    · exact ⟨_, rfl⟩
    · exact ⟨_, rfl⟩
  obtain ⟨ws, hws⟩ := hsome
  exact ⟨ws, hws, hws⟩

/-- At threshold `Warn` with stdout and color disabled, `Fatal("x")` returns after writing "x",
as `Log(FatalLvl, "x")` does. -/
theorem level_methods_eq_Log_witness :
    ∃ ws : List Write,
      Logger.Fatal 1 (fun _ => "now")
        (NewLogger none WarnLvl true false false BgBlack White false "") "x" = some ws ∧
      Log 1 (fun _ => "now")
        (NewLogger none WarnLvl true false false BgBlack White false "") FatalLvl "x" =
          some ws :=
  (level_methods_eq_Log 0 (fun _ => "now")
    (NewLogger none WarnLvl true false false BgBlack White false "") "x").2.2.2.2 rfl

/-! ## The constructor -/

/-- C15: for all arguments, the logger of `NewLogger` has each of the nine fields equal to the
argument of the same name, the sixth argument being the background and the seventh the text
color, and its `DebugMode` is enabled. -/
theorem NewLogger_fields (file : Option File) (level : Level) (stdout stderr color : Bool)
    (bgColor textColor : Color) (timestamps : Bool) (timestampFormat : GoString) :
    (NewLogger file level stdout stderr color bgColor textColor timestamps
        timestampFormat).file = file ∧
    (NewLogger file level stdout stderr color bgColor textColor timestamps
        timestampFormat).level = level ∧
    (NewLogger file level stdout stderr color bgColor textColor timestamps
        timestampFormat).stdout = stdout ∧
    (NewLogger file level stdout stderr color bgColor textColor timestamps
        timestampFormat).stderr = stderr ∧
    (NewLogger file level stdout stderr color bgColor textColor timestamps
        timestampFormat).color = color ∧
    (NewLogger file level stdout stderr color bgColor textColor timestamps
        timestampFormat).bgColor = bgColor ∧
    (NewLogger file level stdout stderr color bgColor textColor timestamps
        timestampFormat).textColor = textColor ∧
    (NewLogger file level stdout stderr color bgColor textColor timestamps
        timestampFormat).Timestamps = timestamps ∧
    (NewLogger file level stdout stderr color bgColor textColor timestamps
        timestampFormat).TimestampFormat = timestampFormat ∧
    (NewLogger file level stdout stderr color bgColor textColor timestamps
        timestampFormat).DebugMode = true :=
  ⟨rfl, rfl, rfl, rfl, rfl, rfl, rfl, rfl, rfl, rfl⟩

/-- C16: on the arguments of `TestNewLogger`, the logger of
`NewLogger(nil, DebugLvl, true, true, true)`, the other arguments at their zero values, is not
the struct literal with only those five fields set that the test wants, because its
`DebugMode` is true. -/
theorem NewLogger_literal_counterexample :
    NewLogger none DebugLvl true true true (Color.mk "") (Color.mk "") false "" ≠
      Logger.mk none DebugLvl true true true (Color.mk "") (Color.mk "") false "" false := by
  decide

/-- With the other arguments at their zero values, the logger of `NewLogger` is the struct
literal in which the five given fields and `DebugMode: true` are set and every other field has
its zero value. -/
theorem NewLogger_literal (file : Option File) (level : Level) (stdout stderr color : Bool) :
    NewLogger file level stdout stderr color (Color.mk "") (Color.mk "") false "" =
      Logger.mk file level stdout stderr color (Color.mk "") (Color.mk "") false "" true :=
  rfl

/-! ## Colors -/

/-- C17: `Code` maps the eight foreground tokens of its `switch` to their two-digit codes, and
every other `Color` to the empty string: any value that is none of the eight, in particular
the eight background tokens and `Reset`. -/
theorem Color_Code_table :
    (Black.Code = "30" ∧ Red.Code = "31" ∧ Green.Code = "32" ∧ Yellow.Code = "33" ∧
      Blue.Code = "34" ∧ Magenta.Code = "35" ∧ Cyan.Code = "36" ∧ White.Code = "37") ∧
    (∀ c : Color, c ≠ Black → c ≠ Red → c ≠ Green → c ≠ Yellow → c ≠ Blue → c ≠ Magenta →
      c ≠ Cyan → c ≠ White → c.Code = "") ∧
    (BgBlack.Code = "" ∧ BgRed.Code = "" ∧ BgGreen.Code = "" ∧ BgYellow.Code = "" ∧
      BgBlue.Code = "" ∧ BgMagenta.Code = "" ∧ BgCyan.Code = "" ∧ BgWhite.Code = "" ∧
      Reset.Code = "") := by
  refine ⟨by decide, ?_, by decide⟩
  intro c h1 h2 h3 h4 h5 h6 h7 h8
  simp only [Color.Code, h1, h2, h3, h4, h5, h6, h7, h8, if_false]

/-- C17, on a string that is no token at all. -/
theorem Color_Code_table_witness : (Color.mk "orange").Code = "" :=
  Color_Code_table.2.1 (Color.mk "orange") (by decide) (by decide) (by decide) (by decide)
    (by decide) (by decide) (by decide) (by decide)

/-- C18: `String` returns the underlying string of every `Color`; the named tokens have the
listed escape sequences; and every color with a non-empty `Code` has the string
ESC "[1;" + `Code` + "m". -/
theorem Color_String_table :
    (∀ s : GoString, (Color.mk s).String = s) ∧
    (Black.String = "\x1b[1;30m" ∧ Red.String = "\x1b[1;31m" ∧ Green.String = "\x1b[1;32m" ∧
      Yellow.String = "\x1b[1;33m" ∧ Blue.String = "\x1b[1;34m" ∧
      Purple.String = "\x1b[1;35m" ∧ Cyan.String = "\x1b[1;36m" ∧
      White.String = "\x1b[1;37m" ∧ Reset.String = "\x1b[0m") ∧
    (∀ c : Color, c.Code ≠ "" → c.String = "\x1b[1;" ++ c.Code ++ "m") := by
  refine ⟨fun _ => rfl, by decide, ?_⟩
  intro c hc
  unfold Color.Code at hc ⊢
  split_ifs at hc ⊢ with h1 h2 h3 h4 h5 h6 h7 h8
  · subst h1; decide
  · subst h2; decide
  · subst h3; decide
  · subst h4; decide
  · subst h5; decide
  · subst h6; decide
  · subst h7; decide
  · subst h8; decide
  · exact absurd rfl hc

/-- C18, on `Magenta`, whose code is "35". -/
theorem Color_String_table_witness : Magenta.String = "\x1b[1;" ++ Magenta.Code ++ "m" :=
  Color_String_table.2.2 Magenta (by decide)

/-! ## Debug -/

/-- With `DebugMode` disabled, `Debug(m)` returns without any write and without any call
of `runtime.Caller`, leaving the process state as it was.  With `DebugMode` enabled, `Debug(m)`
runs `DebugMessage(4)` and then `Log(DebugLvl, m)`: its events are those of `DebugMessage`
followed by the writes of that `Log` call; and the events of `DebugMessage` are the two calls
of `runtime.Caller` followed by the writes of the debug message. -/
theorem Debug_spec (env : Env) (fuel : Nat) (l : Logger) (m : GoString) (w : World) :
    (l.DebugMode = false → Logger.Debug env fuel l m w = some ([], w)) ∧
    (l.DebugMode = true →
      Logger.Debug env fuel l m w =
        match Debugger.DebugMessage env fuel (some [4]) w with
        | none => none
        | some (es, w1) =>
          match Log fuel env.clock l DebugLvl m with
          | none => none
          | some ws => some (es ++ ws.map Event.write, w1)) ∧
    (∀ (es : List Event) (w1 : World),
      Debugger.DebugMessage env fuel (some [4]) w = some (es, w1) →
        ∃ ws : List Write, es = Event.caller 6 :: Event.caller 6 :: ws.map Event.write) := by
  refine ⟨fun hd => ?_, fun hd => ?_, fun es w1 h => ?_⟩
  · simp [Logger.Debug, Logger.DebugLog, hd]
  · simp only [Logger.Debug, Logger.DebugLog, hd, if_true]
    cases Debugger.DebugMessage env fuel (some [4]) w with
    | none => rfl
    | some r => rfl
  · simp only [Debugger.DebugMessage, Debugger.GetFunctionName,
      Debugger.GetFileAndLineNumber] at h
    split at h
    · exact absurd h (by simp)
    · rename_i ws w2 _
      simp only [Option.some.injEq, Prod.mk.injEq] at h
      exact ⟨ws, by rw [← h.1]; rfl⟩

/-- From the uninitialised singleton with every file openable, on a logger at threshold
`All` with stdout: with `DebugMode` disabled nothing happens; with it enabled the two calls of
`runtime.Caller` and the debug message, written by the default singleton to its file and to
stdout, come first, and then "m" is written to stdout. -/
theorem Debug_spec_witness :
    Logger.Debug
        (Env.mk (fun layout => layout) (fun _ => true) (fun format _ => format)
          (fun _ => "main.f") (fun _ => "main.go") (fun _ => 7))
        1 (Logger.mk none AllLvl true false false White BgBlack false "" false) "m"
        World.init = some ([], World.init) ∧
    Logger.Debug
        (Env.mk (fun layout => layout) (fun _ => true) (fun format _ => format)
          (fun _ => "main.f") (fun _ => "main.go") (fun _ => 7))
        1 (Logger.mk none AllLvl true false false White BgBlack false "" true) "m"
        World.init =
      some ([Event.caller 6, Event.caller 6,
          Event.write (Write.mk (Sink.file 0)
            "[2006/01/02 15:04:05] Debug Message - Function name: %s, File: %s, Line: %d\n"),
          Event.write (Write.mk Sink.stdout
            "[2006/01/02 15:04:05] Debug Message - Function name: %s, File: %s, Line: %d\n"),
          Event.write (Write.mk Sink.stdout "m")],
        World.mk (GoLogger.mk (some 0) true)
          [NewLogger (some 0) InfoLvl true false false BgBlack White true
            "2006/01/02 15:04:05"]
          ["logs.txt"]) :=
  ⟨(Debug_spec
      (Env.mk (fun layout => layout) (fun _ => true) (fun format _ => format)
        (fun _ => "main.f") (fun _ => "main.go") (fun _ => 7))
      1 (Logger.mk none AllLvl true false false White BgBlack false "" false) "m"
      World.init).1 rfl,
   (Debug_spec
      (Env.mk (fun layout => layout) (fun _ => true) (fun format _ => format)
        (fun _ => "main.f") (fun _ => "main.go") (fun _ => 7))
      1 (Logger.mk none AllLvl true false false White BgBlack false "" true) "m"
      World.init).2.1 rfl⟩

/-! ## Setters -/

/-- C14, amended: each setter returns the logger with the one named field set to the value
given and the nine other fields as they were.  A following `Log` reads the new values of the
level, of the two stream flags and of the two timestamp settings: on a logger with
color disabled, after `SetLevel`, `SetStdout`, `SetStderr` and `DisableTimestamps` it filters
by the new level and writes the bare message to stdout and stderr as newly set; after
`SetTimestampFormat` and `EnableTimestamps` it writes the message stamped in the new layout. -/
theorem setters_frame (l : Logger) (level : Level) (so se : Bool) (c : Color)
    (format : GoString) (fuel : Nat) (clock : Clock) (lv : Level) (m : GoString) :
    (l.SetLevel level = Logger.mk l.file level l.stdout l.stderr l.color l.textColor l.bgColor
        l.Timestamps l.TimestampFormat l.DebugMode ∧
      l.SetStdout so = Logger.mk l.file l.level so l.stderr l.color l.textColor l.bgColor
        l.Timestamps l.TimestampFormat l.DebugMode ∧
      l.SetStderr se = Logger.mk l.file l.level l.stdout se l.color l.textColor l.bgColor
        l.Timestamps l.TimestampFormat l.DebugMode ∧
      l.SetTextColor c = Logger.mk l.file l.level l.stdout l.stderr l.color c l.bgColor
        l.Timestamps l.TimestampFormat l.DebugMode ∧
      l.SetBgColor c = Logger.mk l.file l.level l.stdout l.stderr l.color l.textColor c
        l.Timestamps l.TimestampFormat l.DebugMode ∧
      l.EnableDebugMode = Logger.mk l.file l.level l.stdout l.stderr l.color l.textColor
        l.bgColor l.Timestamps l.TimestampFormat true ∧
      l.DisableDebugMode = Logger.mk l.file l.level l.stdout l.stderr l.color l.textColor
        l.bgColor l.Timestamps l.TimestampFormat false ∧
      l.EnableTimestamps = Logger.mk l.file l.level l.stdout l.stderr l.color l.textColor
        l.bgColor true l.TimestampFormat l.DebugMode ∧
      l.DisableTimestamps = Logger.mk l.file l.level l.stdout l.stderr l.color l.textColor
        l.bgColor false l.TimestampFormat l.DebugMode ∧
      l.SetTimestampFormat format = Logger.mk l.file l.level l.stdout l.stderr l.color
        l.textColor l.bgColor l.Timestamps format l.DebugMode) ∧
    (l.color = false →
      Log (fuel + 1) clock ((((l.SetLevel level).SetStdout so).SetStderr se).DisableTimestamps)
          lv m =
        if lv ≥ level then
          some ((l.file.toList.map fun f => Write.mk (Sink.file f) m) ++
            (if so then [Write.mk Sink.stdout m] else []) ++
            (if se then [Write.mk Sink.stderr m] else []))
        else some []) ∧
    (l.color = false →
      Log (fuel + 1) clock ((l.SetTimestampFormat format).EnableTimestamps) l.level m =
        some ((l.file.toList.map Sink.file ++ (if l.stdout then [Sink.stdout] else []) ++
            (if l.stderr then [Sink.stderr] else [])).map fun s =>
          Write.mk s ("[" ++ clock (if format = "" then "2006-01-02 15:04:05" else format) ++
            "] " ++ m))) := by
  refine ⟨⟨rfl, rfl, rfl, rfl, rfl, rfl, rfl, rfl, rfl, rfl⟩, fun hc => ?_, fun hc => ?_⟩
  · rw [Log_plain_unfold fuel clock _ lv m (by exact hc)]
    show (if lv ≥ level then _ else _) = _
    split
    · cases hf : l.file <;> simp [Logger.SetLevel, Logger.SetStdout, Logger.SetStderr,
        Logger.DisableTimestamps, hf]
    · rfl
  · rw [Log_plain_unfold fuel clock _ l.level m (by exact hc)]
    show (if l.level ≥ l.level then _ else _) = _
    rw [if_pos (le_refl _)]
    cases hf : l.file <;> cases hso : l.stdout <;> cases hse : l.stderr <;>
      simp [Logger.SetTimestampFormat, Logger.EnableTimestamps, hf, hso, hse]

/-- C14, amended, on a logger at threshold `Info` that writes to stdout: after raising the level to
`Error`, turning stdout off and stderr on, a `Warn` message is dropped and an `Error` message
goes to stderr only; after setting the layout "15:04" the message is stamped with it. -/
theorem setters_frame_witness :
    Log 1 (fun layout => layout)
        (((((NewLogger none InfoLvl true false false BgBlack White false "").SetLevel
          ErrorLvl).SetStdout false).SetStderr true).DisableTimestamps) WarnLvl "x" =
      some [] ∧
    Log 1 (fun layout => layout)
        (((((NewLogger none InfoLvl true false false BgBlack White false "").SetLevel
          ErrorLvl).SetStdout false).SetStderr true).DisableTimestamps) ErrorLvl "x" =
      some [Write.mk Sink.stderr "x"] ∧
    Log 1 (fun layout => layout)
        (((NewLogger none InfoLvl true false false BgBlack White false "").SetTimestampFormat
          "15:04").EnableTimestamps) InfoLvl "x" =
      some [Write.mk Sink.stdout "[15:04] x"] :=
  ⟨(setters_frame (NewLogger none InfoLvl true false false BgBlack White false "") ErrorLvl
      false true Red "15:04" 0 (fun layout => layout) WarnLvl "x").2.1 rfl,
   (setters_frame (NewLogger none InfoLvl true false false BgBlack White false "") ErrorLvl
      false true Red "15:04" 0 (fun layout => layout) ErrorLvl "x").2.1 rfl,
   (setters_frame (NewLogger none InfoLvl true false false BgBlack White false "") ErrorLvl
      false true Red "15:04" 0 (fun layout => layout) InfoLvl "x").2.2 rfl⟩

/-! ## Formatting methods -/

/-- C19: what `Printf` and `Debugf` do, for every `fmt.Sprintf`.  `Printf(format, args...)` is
`Info` of `Sprintf(format, args)`, the whole argument list being one operand, a slice.  On a
logger with no sink enabled and `DebugMode` disabled, `Debugf("x=%d", 1)` writes the formatted
string and a newline to the standard output, whereas `Debug` of the formatted string does
nothing. -/
theorem Printf_Debugf_behaviour (Sprintf : SprintfFn) (fuel : Nat) (clock : Clock) (l : Logger)
    (format : GoString) (args : List GoValue) (env : Env) (w : World) :
    Logger.Printf Sprintf fuel clock l format args =
      Logger.Info fuel clock l (Sprintf format [GoValue.slice args]) ∧
    Logger.Debugf Sprintf (Logger.mk none InfoLvl false false false White BgBlack false "" false)
        "x=%d" [GoValue.int 1] =
      some [Write.mk Sink.stdout (Sprintf "x=%d" [GoValue.int 1] ++ "\n")] ∧
    Logger.Debug env fuel (Logger.mk none InfoLvl false false false White BgBlack false "" false)
        (Sprintf "x=%d" [GoValue.int 1]) w = some ([], w) := by
  refine ⟨rfl, rfl, ?_⟩
  simp [Logger.Debug, Logger.DebugLog]

/-- C20: on a logger at threshold `Info` that writes to stdout, `Println("a", "b")` writes
"a b" followed by two newlines where `Info(Sprintln("a", "b"))` writes "a b" and one newline;
and, from the uninitialised singleton with `DebugMode` enabled, `Debugln("a", "b")` writes
"a b" and three newlines after the debug message, at level `Info`, where
`Debug(Sprintln("a", "b"))` writes nothing after the debug message, a `Debug` message being
below the threshold. -/
theorem Println_Debugln_behaviour :
    Logger.Println 1 (fun layout => layout)
        (NewLogger none InfoLvl true false false BgBlack White false "")
        [GoValue.str "a", GoValue.str "b"] =
      some [Write.mk Sink.stdout "a b\n\n"] ∧
    Logger.Info 1 (fun layout => layout)
        (NewLogger none InfoLvl true false false BgBlack White false "")
        (Sprintln [GoValue.str "a", GoValue.str "b"]) =
      some [Write.mk Sink.stdout "a b\n"] ∧
    Logger.Debugln
        (Env.mk (fun layout => layout) (fun _ => true) (fun format _ => format)
          (fun _ => "main.f") (fun _ => "main.go") (fun _ => 7))
        1 (NewLogger none InfoLvl true false false BgBlack White false "")
        [GoValue.str "a", GoValue.str "b"] World.init =
      some ([Event.caller 6, Event.caller 6,
          Event.write (Write.mk (Sink.file 0)
            "[2006/01/02 15:04:05] Debug Message - Function name: %s, File: %s, Line: %d\n"),
          Event.write (Write.mk Sink.stdout
            "[2006/01/02 15:04:05] Debug Message - Function name: %s, File: %s, Line: %d\n"),
          Event.write (Write.mk Sink.stdout "a b\n\n\n")],
        World.mk (GoLogger.mk (some 0) true)
          [NewLogger (some 0) InfoLvl true false false BgBlack White true
            "2006/01/02 15:04:05"]
          ["logs.txt"]) ∧
    Logger.Debug
        (Env.mk (fun layout => layout) (fun _ => true) (fun format _ => format)
          (fun _ => "main.f") (fun _ => "main.go") (fun _ => 7))
        1 (NewLogger none InfoLvl true false false BgBlack White false "")
        (Sprintln [GoValue.str "a", GoValue.str "b"]) World.init =
      some ([Event.caller 6, Event.caller 6,
          Event.write (Write.mk (Sink.file 0)
            "[2006/01/02 15:04:05] Debug Message - Function name: %s, File: %s, Line: %d\n"),
          Event.write (Write.mk Sink.stdout
            "[2006/01/02 15:04:05] Debug Message - Function name: %s, File: %s, Line: %d\n")],
        World.mk (GoLogger.mk (some 0) true)
          [NewLogger (some 0) InfoLvl true false false BgBlack White true
            "2006/01/02 15:04:05"]
          ["logs.txt"]) := by
  refine ⟨by decide, by decide, by decide, by decide⟩

/-- The four other `f` methods and the four other `ln` methods call the plain method of their
level on the formatted string. -/
theorem formatting_methods_delegate (Sprintf : SprintfFn) (fuel : Nat) (clock : Clock)
    (l : Logger) (format : GoString) (args : List GoValue) :
    (Logger.Infof Sprintf fuel clock l format args =
        Logger.Info fuel clock l (Sprintf format args) ∧
      Logger.Errorf Sprintf fuel clock l format args =
        Logger.Error fuel clock l (Sprintf format args) ∧
      Logger.Warningf Sprintf fuel clock l format args =
        Logger.Warn fuel clock l (Sprintf format args) ∧
      Logger.Fatalf Sprintf fuel clock l format args =
        Logger.Fatal fuel clock l (Sprintf format args)) ∧
    (Logger.Infoln fuel clock l args = Logger.Info fuel clock l (Sprintln args) ∧
      Logger.Errorln fuel clock l args = Logger.Error fuel clock l (Sprintln args) ∧
      Logger.Warningln fuel clock l args = Logger.Warn fuel clock l (Sprintln args) ∧
      Logger.Fatalln fuel clock l args = Logger.Fatal fuel clock l (Sprintln args)) :=
  ⟨⟨rfl, rfl, rfl, rfl⟩, ⟨rfl, rfl, rfl, rfl⟩⟩

/-! ## Termination of `Log` and `LogColor` -/

/-- C21: for every logger, clock, level, color and message, with timestamps enabled or not.
With color enabled neither `Log` nor `LogColor` returns, whatever the depth allowed to the call
stack: the recursion between the two is not bounded.  With color disabled `Log` returns within
one frame and `LogColor` within two, with the same list of at most three writes. -/
theorem Log_LogColor_termination (clock : Clock) (l : Logger) (level : Level) (c : Color)
    (m : GoString) :
    (∀ fuel : Nat,
      Log fuel clock { l with color := true } level m = none ∧
      LogColor fuel clock { l with color := true } level c m = none) ∧
    (∃ ws : List Write,
      Log 1 clock { l with color := false } level m = some ws ∧
      LogColor 2 clock { l with color := false } level c m = some ws ∧
      ws.length ≤ 3) := by
  constructor
  · intro fuel
    have h := color_never_returns clock { l with color := true } rfl fuel
    exact ⟨h.1 level m, h.2 level c m⟩
  · have hLC : LogColor 2 clock { l with color := false } level c m =
        Log 1 clock { l with color := false } level m := by
      simp only [LogColor, Bool.false_eq_true, if_false]
    rw [hLC, Log_plain_unfold 0 clock { l with color := false } level m rfl]
    split
    · refine ⟨_, rfl, rfl, ?_⟩
      cases l.file <;> cases l.stdout <;> cases l.stderr <;> simp
    · exact ⟨[], rfl, rfl, by simp⟩

/-! ## The level methods, `Debug` and the setters where the claims fail -/

/-- C12: on a logger with color enabled, at threshold `Warn` with stdout, `Fatal("x")` does not
return at any depth of the call stack, and neither do `Info("x")`, `Warn("x")` and
`Error("x")`: the `Log` call inside each never returns, so nothing is written and the caller
is never reached again. -/
theorem level_methods_color_no_return (fuel : Nat) (clock : Clock) :
    Logger.Fatal fuel clock (NewLogger none WarnLvl true false true BgBlack White false "")
      "x" = none ∧
    Logger.Info fuel clock (NewLogger none WarnLvl true false true BgBlack White false "")
      "x" = none ∧
    Logger.Warn fuel clock (NewLogger none WarnLvl true false true BgBlack White false "")
      "x" = none ∧
    Logger.Error fuel clock (NewLogger none WarnLvl true false true BgBlack White false "")
      "x" = none :=
  ⟨(color_never_returns clock _ rfl fuel).1 _ _, (color_never_returns clock _ rfl fuel).1 _ _,
   (color_never_returns clock _ rfl fuel).1 _ _, (color_never_returns clock _ rfl fuel).1 _ _⟩

/-- C13: after `GetInstance` has built the singleton from a configuration with color enabled,
`Debug("m")` on a logger of its own, with color disabled, `DebugMode` enabled, threshold `All`
and stdout, does not return at any depth of the call stack: `DebugMessage` prints through the
singleton, whose `Log` never returns, so the debug message is not written and
`Log(DebugLvl, "m")` is never reached. -/
theorem Debug_color_singleton_no_return :
    GetInstance (fun _ => true)
        [Parameter.mk "logs.txt" InfoLvl true false true White BgBlack false ""] World.init =
      some (some 0,
        World.mk (GoLogger.mk (some 0) true)
          [NewLogger (some 0) InfoLvl true false true BgBlack White false ""] ["logs.txt"]) ∧
    ∀ fuel : Nat,
      Logger.Debug
        (Env.mk (fun layout => layout) (fun _ => true) (fun format _ => format)
          (fun _ => "main.f") (fun _ => "main.go") (fun _ => 7))
        fuel (NewLogger none AllLvl true false false BgBlack White false "") "m"
        (World.mk (GoLogger.mk (some 0) true)
          [NewLogger (some 0) InfoLvl true false true BgBlack White false ""] ["logs.txt"]) =
        none := by
  refine ⟨by decide, fun fuel => ?_⟩
  have h : ∀ msg : GoString,
      Log fuel (fun layout => layout)
        (NewLogger (some 0) InfoLvl true false true BgBlack White false "") InfoLvl msg =
        none :=
    fun msg => (color_never_returns _ _ rfl fuel).1 _ _
  simp only [NewLogger] at h
  simp [Logger.Debug, Logger.DebugLog, Debugger.DebugMessage, Debugger.GetFunctionName,
    Debugger.GetFileAndLineNumber, Printf, GetInstance, initInstance, createInstance, OpenFile,
    getDefaultParameter, Logger.Infof, Logger.Info, NewLogger, h]

/-- C14 fails for four setters: on a logger with color disabled that writes to stdout, the
writes of a following `Log(InfoLvl, "x")` are the same whichever color `SetTextColor` and
`SetBgColor` stored and whether `EnableDebugMode` or `DisableDebugMode` was called.  And on a
logger with color enabled a `Log` that follows `SetLevel` does not return at any depth. -/
theorem setters_unread_by_Log_counterexample :
    (Log 1 (fun layout => layout)
        ((NewLogger none InfoLvl true false false BgBlack White false "").SetTextColor Red)
        InfoLvl "x" = some [Write.mk Sink.stdout "x"] ∧
      Log 1 (fun layout => layout)
        ((NewLogger none InfoLvl true false false BgBlack White false "").SetTextColor Blue)
        InfoLvl "x" = some [Write.mk Sink.stdout "x"]) ∧
    (Log 1 (fun layout => layout)
        ((NewLogger none InfoLvl true false false BgBlack White false "").SetBgColor BgRed)
        InfoLvl "x" = some [Write.mk Sink.stdout "x"] ∧
      Log 1 (fun layout => layout)
        ((NewLogger none InfoLvl true false false BgBlack White false "").SetBgColor BgBlue)
        InfoLvl "x" = some [Write.mk Sink.stdout "x"]) ∧
    (Log 1 (fun layout => layout)
        (NewLogger none InfoLvl true false false BgBlack White false "").EnableDebugMode
        InfoLvl "x" = some [Write.mk Sink.stdout "x"] ∧
      Log 1 (fun layout => layout)
        (NewLogger none InfoLvl true false false BgBlack White false "").DisableDebugMode
        InfoLvl "x" = some [Write.mk Sink.stdout "x"]) ∧
    (∀ fuel : Nat,
      Log fuel (fun layout => layout)
        ((NewLogger none InfoLvl true false true BgBlack White false "").SetLevel ErrorLvl)
        FatalLvl "x" = none) :=
  ⟨by decide, by decide, by decide, fun fuel => (color_never_returns _ _ rfl fuel).1 _ _⟩

/-! ## `Debug` when the singleton is plain -/

/-- With color disabled `Log` returns within one frame. -/
theorem Log_plain_returns (fuel : Nat) (clock : Clock) (l : Logger) (level : Level)
    (m : GoString) (hc : l.color = false) :
    ∃ ws : List Write, Log (fuel + 1) clock l level m = some ws := by
  rw [Log_plain_unfold fuel clock l level m hc]
  split
  · exact ⟨_, rfl⟩
  · exact ⟨_, rfl⟩

/-- When "logs.txt" can be opened, the singleton exists with color disabled and the logger has
color disabled and `DebugMode` enabled, `Debug(m)` returns: its events are the two calls of
`runtime.Caller` with 6 frames to skip, the writes of the singleton for the debug message at
level `Info`, and then the writes of `Log(DebugLvl, m)` on the logger itself; the file has been
opened once more. -/
theorem Debug_returns (env : Env) (fuel : Nat) (l : Logger) (m : GoString) (w : World)
    (p : Ptr) (sl : Logger)
    (hopen : env.openable DefaultFile = true)
    (hdone : w.loggerInstance.doOnce = true) (hinst : w.loggerInstance.Instance = some p)
    (hheap : w.heap[p]? = some sl) (hsl : sl.color = false)
    (hl : l.color = false) (hd : l.DebugMode = true) :
    ∃ wsS wsL : List Write,
      Log (fuel + 1) env.clock sl InfoLvl
        (env.Sprintf "Debug Message - Function name: %s, File: %s, Line: %d\n"
          [GoValue.str (env.funcName 6), GoValue.str (env.file 6), GoValue.int (env.line 6)]) =
        some wsS ∧
      Log (fuel + 1) env.clock l DebugLvl m = some wsL ∧
      Logger.Debug env (fuel + 1) l m w =
        some (Event.caller 6 :: Event.caller 6 ::
            (wsS.map Event.write ++ wsL.map Event.write),
          { w with opened := w.opened ++ [DefaultFile] }) := by
  obtain ⟨wsS, hS⟩ := Log_plain_returns fuel env.clock sl InfoLvl
    (env.Sprintf "Debug Message - Function name: %s, File: %s, Line: %d\n"
      [GoValue.str (env.funcName 6), GoValue.str (env.file 6), GoValue.int (env.line 6)]) hsl
  obtain ⟨wsL, hL⟩ := Log_plain_returns fuel env.clock l DebugLvl m hl
  refine ⟨wsS, wsL, hS, hL, ?_⟩
  have hG := GetInstance_initialised env.openable [] w hdone hopen
  simp only [List.headD_nil] at hG
  have hF : getDefaultParameter.Filename = DefaultFile := rfl
  rw [hF, hinst] at hG
  have h6 : wrapInt 6 = 6 := by decide
  simp [Logger.Debug, Logger.DebugLog, hd, Debugger.DebugMessage, Debugger.GetFunctionName,
    Debugger.GetFileAndLineNumber, Printf, hG, hheap, Logger.Infof, Logger.Info, hS, hL, h6]

end Alailog
